import Mathlib

/-!
Verification of the beanie-index-demo service: a shallow embedding of its
data model (`models/data_models.py`, `models/interface_models.py`) and its
three HTTP handlers (`routes.py`): bulk import from a KML-like markup
document, text search, and radius search.

Modelling conventions:
* Python/IEEE floats are modelled as `ℚ`.  The service performs no float
  arithmetic of its own (coordinates are parsed, stored and returned
  verbatim; distances are computed by the external store), so exact
  rationals are a faithful stand-in for the finite decimal literals the
  handlers deal with.
* The MongoDB store is an external collaborator.  The repository only
  issues driver calls (`insert_many`, `find_many` with a `$text` filter,
  `sort="name"`, `skip`, `limit`, and a `$geoNear` aggregation); the
  store-side semantics of those calls are modelled from the spec, with the
  text-match predicate and the geospatial distance function kept abstract
  as parameters.
* The stored collection is a `List Place`; each handler additionally
  returns the trace of driver calls it issued, so that read-only-ness and
  single-batch-insert facts are visible in the model.
-/

namespace BeanieIndexDemo

/-! ### Python string primitives used by `routes.py` -/

/-- The whitespace characters stripped by Python `str.strip()`
(ASCII subset, which covers every string this service handles). -/
def pyIsSpace (c : Char) : Bool :=
  c == ' ' || c == '\t' || c == '\n' || c == '\r' || c == '\x0b' || c == '\x0c'

/-- Model of `str.strip()` on a character list: drop whitespace from both ends. -/
def pystripChars (cs : List Char) : List Char :=
  ((cs.dropWhile pyIsSpace).reverse.dropWhile pyIsSpace).reverse

/-- Python `str.strip()`. -/
def pystrip (s : String) : String :=
  String.mk (pystripChars s.toList)

/-- Model of `str.split(sep)` with a one-character separator, on character lists.
Python semantics: `"".split(",") = [""]`, `"a,,b".split(",") = ["a","","b"]`. -/
def splitChar (sep : Char) : List Char → List (List Char)
  | [] => [[]]
  | c :: rest =>
    let r := splitChar sep rest
    if c == sep then [] :: r
    else (c :: r.headD []) :: r.tail

/-- Python `str.split(sep)` for a one-character separator. -/
def pysplit (sep : Char) (s : String) : List String :=
  (splitChar sep s.toList).map String.mk

/-- Value of a digit list, most significant first. -/
def digitsVal (cs : List Char) : ℕ :=
  cs.foldl (fun n c => 10 * n + (c.toNat - 48)) 0

/-- Parse the exponent part of a float literal (after the `e`/`E`). -/
def parseExpPart (cs : List Char) : Option ℤ :=
  let (sgn, ds) : ℤ × List Char :=
    match cs with
    | '-' :: r => (-1, r)
    | '+' :: r => (1, r)
    | r => (1, r)
  if !ds.isEmpty && ds.all Char.isDigit then some (sgn * (digitsVal ds : ℤ))
  else none

/-- The syntactic parts of a finite decimal float literal:
sign, integer-part digits, fraction digits (with their count), exponent. -/
structure PyFloatParts where
  neg : Bool
  intPart : ℕ
  fracPart : ℕ
  fracLen : ℕ
  exp : ℤ
deriving DecidableEq

/-- The rational value of a parsed decimal literal. -/
def PyFloatParts.val (p : PyFloatParts) : ℚ :=
  (if p.neg then -1 else 1) *
    ((p.intPart : ℚ) + (p.fracPart : ℚ) / (10 : ℚ) ^ p.fracLen) *
    (10 : ℚ) ^ p.exp

/-- The character-level grammar accepted by Python `float(str)` on finite
decimal literals: optional sign, digits, optional `.` and fraction digits
(at least one digit overall), optional exponent; surrounding whitespace is
stripped.  `inf`, `nan` and digit-group underscores are outside the
inputs of this service and are not modelled. -/
def parsePyFloat (s : String) : Option PyFloatParts :=
  let cs := pystripChars s.toList
  let (neg, cs1) : Bool × List Char :=
    match cs with
    | '-' :: r => (true, r)
    | '+' :: r => (false, r)
    | r => (false, r)
  let ip := cs1.takeWhile Char.isDigit
  let r1 := cs1.dropWhile Char.isDigit
  let (fp, r2) : List Char × List Char :=
    match r1 with
    | '.' :: r => (r.takeWhile Char.isDigit, r.dropWhile Char.isDigit)
    | r => ([], r)
  if ip.isEmpty && fp.isEmpty then none
  else
    match r2 with
    | [] => some ⟨neg, digitsVal ip, digitsVal fp, fp.length, 0⟩
    | 'e' :: r =>
      (parseExpPart r).map fun e => ⟨neg, digitsVal ip, digitsVal fp, fp.length, e⟩
    | 'E' :: r =>
      (parseExpPart r).map fun e => ⟨neg, digitsVal ip, digitsVal fp, fp.length, e⟩
    | _ => none

/-- Python `float(str)`. -/
def pyfloat (s : String) : Option ℚ :=
  (parsePyFloat s).map PyFloatParts.val

/-! ### Data model (`models/data_models.py`) -/

/-- Model of `GeoType(str, Enum)` with the single member `point = "Point"`. -/
inductive GeoType where
  | point
deriving DecidableEq

/-- The string value of a `GeoType` member. -/
def GeoType.str : GeoType → String
  | .point => "Point"

/-- Model of `GeoObject(BaseModel)`: `type: GeoType = GeoType.point`,
`coordinates: Tuple[float, float]`. -/
structure GeoObject where
  type : GeoType := GeoType.point
  coordinates : ℚ × ℚ
deriving DecidableEq

/-- Model of `Place(Document)`: `name: str`, `description: str`, `geo: GeoObject`. -/
structure Place where
  name : String
  description : String
  geo : GeoObject
deriving DecidableEq

/-! ### Interface models (`models/interface_models.py`) -/

/-- Model of `ResponseStatuses(str, Enum)` with the single member `OK = "OK"`. -/
inductive ResponseStatuses where
  | OK
deriving DecidableEq

/-- Model of `StatusResponse(BaseModel)`: `status: ResponseStatuses`. -/
structure StatusResponse where
  status : ResponseStatuses
deriving DecidableEq

/-- Model of `PlacesByWordInput(BaseModel)`: `search_words: str`,
`skip: Optional[int] = None`, `limit: Optional[int] = None`.
Negative skip/limit values are rejected by the store, so the model uses
`Option ℕ`. -/
structure PlacesByWordInput where
  search_words : String
  skip : Option ℕ := none
  limit : Option ℕ := none

/-- Model of `PlacesAroundInput(BaseModel)`: `coordinates: Tuple[float, float]`,
`radius: float = 1000`. -/
structure PlacesAroundInput where
  coordinates : ℚ × ℚ
  radius : ℚ := 1000

/-- The raw `/around/` request body before pydantic validation: the
`radius` field may be omitted. -/
structure PlacesAroundRawBody where
  coordinates : ℚ × ℚ
  radius : Option ℚ

/-- Pydantic validation of the `/around/` body: an omitted `radius`
receives the declared default `1000`. -/
def PlacesAroundInput.ofRaw (raw : PlacesAroundRawBody) : PlacesAroundInput :=
  { coordinates := raw.coordinates, radius := raw.radius.getD 1000 }

/-- Model of `PlaceWithDistance(Place)`: a `Place` plus `distance: float`. -/
structure PlaceWithDistance extends Place where
  distance : ℚ
deriving DecidableEq

/-! ### The parsed markup document (the pykml view used by the import loop) -/

/-- A `<Point>` element: its `coordinates` text content. -/
structure PMPoint where
  coordinates : String
deriving DecidableEq

/-- A `<Placemark>`: `name` and `Point.coordinates` are accessed
unconditionally; `description` access is wrapped in `try/except
AttributeError`, so an absent element is `none`. -/
structure Placemark where
  name : String
  description : Option String
  Point : PMPoint
deriving DecidableEq

/-- A `<Folder>`: its list of `Placemark` children. -/
structure Folder where
  Placemark : List Placemark
deriving DecidableEq

/-- The parsed document: `root.Document.Folder`, a list of folders. -/
structure KMLDoc where
  Folder : List Folder
deriving DecidableEq

/-- All placemarks of the document, across all folders, in document order
(the order of the nested `for` loops in `places_from_file`). -/
def allPlacemarks (doc : KMLDoc) : List Placemark :=
  (doc.Folder.map fun f => f.Placemark).flatten

/-! ### Import (`places_from_file` in `routes.py`) -/

/-- Pydantic validation of `coordinates: Tuple[float, float]` from the list
of strings produced by `.split(",")[:2]`: exactly two fields, each of which
must convert with `float()`; anything else raises `ValidationError`. -/
def validateCoordPair : List String → Option (ℚ × ℚ)
  | [a, b] =>
    match pyfloat a, pyfloat b with
    | some x, some y => some (x, y)
    | _, _ => none
  | _ => none

/-- The body of the import loop for one placemark:
`description` is `str(place_mark.description).strip()` with
`AttributeError` (absent element) handled as `""`;
the coordinate fields are
`str(place_mark.Point.coordinates).strip().split(",")[:2]`;
`none` models the pydantic `ValidationError` that an invalid coordinate
list raises. -/
def placeOfPlacemark (pm : Placemark) : Option Place :=
  let description :=
    match pm.description with
    | some d => pystrip d
    | none => ""
  let fields := (pysplit ',' (pystrip pm.Point.coordinates)).take 2
  (validateCoordPair fields).map fun xy =>
    { name := pystrip pm.name
      description := description
      geo := { coordinates := xy } }

/-- The import loop over a placemark list: builds the in-memory batch in
order, aborting the whole request at the first placemark whose `Place`
construction raises. -/
def buildPlacesFrom : List Placemark → Option (List Place)
  | [] => some []
  | pm :: rest =>
    match placeOfPlacemark pm with
    | none => none
    | some p => (buildPlacesFrom rest).map fun ps => p :: ps

/-- The full in-memory batch for a parsed document. -/
def buildPlaces (doc : KMLDoc) : Option (List Place) :=
  buildPlacesFrom (allPlacemarks doc)

/-- The batch as a plain list (empty when construction failed). -/
def placesOf (doc : KMLDoc) : List Place :=
  (buildPlaces doc).getD []

/-- A driver call issued to the store. -/
inductive DBCall where
  | insertMany (docs : List Place)
  | findText (query : String) (skip limit : Option ℕ) (sortKey : String)
  | geoNearAgg (near : GeoObject) (maxDistance : ℚ)

/-- Whether a driver call writes to the store. -/
def DBCall.isWrite : DBCall → Bool
  | .insertMany _ => true
  | _ => false

/-- Effect of one driver call on the stored collection:
`insert_many` appends the batch; the two query calls read only. -/
def applyCall (store : List Place) : DBCall → List Place
  | .insertMany docs => store ++ docs
  | _ => store

/-- An uncaught exception escaping a handler.
`parseFailure` is the pykml error on an unparsable document,
`validationFailure` is the pydantic error on an invalid `Place`. -/
inductive HandlerError where
  | parseFailure
  | validationFailure
deriving DecidableEq

/-- Modelled from the spec: the §7 error taxonomy classifies malformed-input
failures (unparsable upload payload, invalid request fields) as client
errors; only store-side failures are server errors.  Both handler
exceptions here stem from malformed input. -/
def HandlerError.isClientError : HandlerError → Bool
  | _ => true

/-- Handler `places_from_file`: the `/upload/` handler.  Its input is the outcome
of `parser.fromstring(file)` (`none` models an unparsable payload, on
which pykml raises before anything is inserted).  Returns the driver-call
trace, the stored collection afterwards, and the response or the escaping
exception. -/
def places_from_file (parsed : Option KMLDoc) (store : List Place) :
    List DBCall × List Place × Except HandlerError StatusResponse :=
  match parsed with
  | none => ([], store, Except.error HandlerError.parseFailure)
  | some doc =>
    match buildPlaces doc with
    | none => ([], store, Except.error HandlerError.validationFailure)
    | some ps =>
      ([DBCall.insertMany ps], store ++ ps,
        Except.ok { status := ResponseStatuses.OK })

/-! ### Text search (`places_by_word` in `routes.py`) -/

/-- The `sort="name"` comparison: ascending by the `name` field. -/
def nameLe (a b : Place) : Prop := a.name ≤ b.name

instance : DecidableRel nameLe := fun a b =>
  decidable_of_iff (a.name.toList ≤ b.name.toList) String.le_iff_toList_le.symm

instance : IsTotal Place nameLe := ⟨fun a b => le_total a.name b.name⟩

instance : IsTrans Place nameLe := ⟨fun _ _ _ hab hbc => le_trans hab hbc⟩

/-- The store-side `sort="name"` step. -/
def sortByName (l : List Place) : List Place :=
  List.insertionSort nameLe l

/-- The store-side `skip` step: `None` means no offset. -/
def applySkip {α : Type} (skip : Option ℕ) (l : List α) : List α :=
  l.drop (skip.getD 0)

/-- The store-side `limit` step: `None` means no bound. -/
def applyLimit {α : Type} (limit : Option ℕ) (l : List α) : List α :=
  match limit with
  | none => l
  | some n => l.take n

/-- Modelled from the spec: the store-side
`find_many({"$text": ...}, skip, limit, sort="name")` — filter by the text
index match predicate `tm` (tokenization is store-side and kept
abstract), sort by `name` ascending, then apply skip and limit as a window
over the full ordered match set. -/
def find_many_text (tm : String → Place → Bool) (w : String)
    (skip limit : Option ℕ) (store : List Place) : List Place :=
  applyLimit limit (applySkip skip (sortByName (store.filter (tm w))))

/-- Handler `places_by_word`: the `/search/` handler.  Returns the driver-call
trace, the stored collection afterwards, and the response list. -/
def places_by_word (tm : String → Place → Bool) (input : PlacesByWordInput)
    (store : List Place) : List DBCall × List Place × List Place :=
  ([DBCall.findText input.search_words input.skip input.limit "name"],
    store,
    find_many_text tm input.search_words input.skip input.limit store)

/-! ### Radius search (`places_by_radius` in `routes.py`) -/

/-- The query point built by the handler:
`GeoObject(coordinates=input_data.coordinates)`. -/
def aroundQueryPoint (input : PlacesAroundInput) : GeoObject :=
  { coordinates := input.coordinates }

/-- Ascending order on the computed `distance` field. -/
def distLe (a b : PlaceWithDistance) : Prop := a.distance ≤ b.distance

instance : DecidableRel distLe := fun a b =>
  inferInstanceAs (Decidable (a.distance ≤ b.distance))

instance : IsTotal PlaceWithDistance distLe :=
  ⟨fun a b => le_total a.distance b.distance⟩

instance : IsTrans PlaceWithDistance distLe :=
  ⟨fun _ _ _ hab hbc => le_trans hab hbc⟩

/-- Modelled from the spec: the store-side `$geoNear` aggregation stage —
keep the places within `maxDistance` of `near`, attach the computed
distance in the `distance` field, and return them nearest first.  The
geospatial distance function `dist` is store-side and kept abstract. -/
def geoNear (dist : GeoObject → GeoObject → ℚ) (near : GeoObject)
    (maxDistance : ℚ) (store : List Place) : List PlaceWithDistance :=
  List.insertionSort distLe
    ((store.filter fun p => decide (dist near p.geo ≤ maxDistance)).map
      fun p => { toPlace := p, distance := dist near p.geo })

/-- Handler `places_by_radius`: the `/around/` handler.  Returns the driver-call
trace, the stored collection afterwards, and the response list. -/
def places_by_radius (dist : GeoObject → GeoObject → ℚ)
    (input : PlacesAroundInput) (store : List Place) :
    List DBCall × List Place × List PlaceWithDistance :=
  ([DBCall.geoNearAgg (aroundQueryPoint input) input.radius],
    store,
    geoNear dist (aroundQueryPoint input) input.radius store)

/-! ### Helper lemmas -/

/-- The single-member enum: every `GeoType` value is `point`. -/
theorem GeoType.eq_point : ∀ t : GeoType, t = GeoType.point
  | .point => rfl

/-- A `Place` built from a placemark validates iff its coordinate fields do;
the description plays no part. -/
theorem placeOfPlacemark_isSome (pm : Placemark) :
    (placeOfPlacemark pm).isSome =
      (validateCoordPair ((pysplit ',' (pystrip pm.Point.coordinates)).take 2)).isSome := by
  simp [placeOfPlacemark]

/-- The description stored for a placemark: trimmed if present, `""` if
absent. -/
theorem placeOfPlacemark_description (pm : Placemark) (p : Place)
    (h : placeOfPlacemark pm = some p) :
    p.description = (Option.map pystrip pm.description).getD "" := by
  simp only [placeOfPlacemark, Option.map_eq_some'] at h
  obtain ⟨xy, _, rfl⟩ := h
  cases pm.description <;> rfl

/-- A successfully built batch has one `Place` per placemark. -/
theorem buildPlacesFrom_length :
    ∀ l : List Placemark, ∀ ps : List Place,
      buildPlacesFrom l = some ps → ps.length = l.length
  | [], ps, h => by simp [buildPlacesFrom] at h; simp [h.symm]
  | pm :: l, ps, h => by
    simp only [buildPlacesFrom] at h
    cases hpm : placeOfPlacemark pm with
    | none => rw [hpm] at h; exact absurd h (by simp)
    | some p =>
      rw [hpm] at h
      cases hrest : buildPlacesFrom l with
      | none => rw [hrest] at h; exact absurd h (by simp)
      | some qs =>
        rw [hrest] at h
        simp only [Option.map_some', Option.some_inj] at h
        subst h
        simp [buildPlacesFrom_length l qs hrest]

/-- If the coordinate fields of every placemark validate, the whole batch builds, and
its descriptions are the trimmed-or-empty descriptions of the placemarks. -/
theorem buildPlacesFrom_spec :
    ∀ l : List Placemark,
      (l.all fun pm => (placeOfPlacemark pm).isSome) = true →
      ∃ ps : List Place, buildPlacesFrom l = some ps ∧
        ps.map Place.description =
          l.map fun pm => (Option.map pystrip pm.description).getD ""
  | [], _ => ⟨[], rfl, rfl⟩
  | pm :: l, h => by
    rw [List.all_cons, Bool.and_eq_true] at h
    obtain ⟨p, hp⟩ := Option.isSome_iff_exists.mp h.1
    obtain ⟨ps, hps, hdesc⟩ := buildPlacesFrom_spec l h.2
    refine ⟨p :: ps, ?_, ?_⟩
    · simp [buildPlacesFrom, hp, hps]
    · simp [hdesc, placeOfPlacemark_description pm p hp]

/-- When the batch builds, `buildPlaces` returns exactly `placesOf`. -/
theorem buildPlaces_eq_some (doc : KMLDoc)
    (h : (buildPlaces doc).isSome = true) :
    buildPlaces doc = some (placesOf doc) := by
  obtain ⟨ps, hps⟩ := Option.isSome_iff_exists.mp h
  simp [placesOf, hps]

/-- The import handler on a successfully built batch: one `insert_many`
call of the whole batch, the store grows by the batch, response `OK`. -/
theorem places_from_file_ok (doc : KMLDoc) (store : List Place)
    (h : (buildPlaces doc).isSome = true) :
    places_from_file (some doc) store =
      ([DBCall.insertMany (placesOf doc)], store ++ placesOf doc,
        Except.ok { status := ResponseStatuses.OK }) := by
  simp [places_from_file, buildPlaces_eq_some doc h]

/-- Every element of a `geoNear` result carries the distance from the query
point, bounded by the cutoff. -/
theorem geoNear_mem (dist : GeoObject → GeoObject → ℚ) (near : GeoObject)
    (maxDistance : ℚ) (store : List Place) (pd : PlaceWithDistance)
    (h : pd ∈ geoNear dist near maxDistance store) :
    pd.distance = dist near pd.toPlace.geo ∧ pd.distance ≤ maxDistance := by
  rw [geoNear, List.mem_insertionSort] at h
  obtain ⟨p, hp, rfl⟩ := List.mem_map.mp h
  exact ⟨rfl, of_decide_eq_true (List.mem_filter.mp hp).2⟩

/-- Results of `geoNear` are sorted by ascending distance. -/
theorem geoNear_pairwise (dist : GeoObject → GeoObject → ℚ) (near : GeoObject)
    (maxDistance : ℚ) (store : List Place) :
    List.Pairwise distLe (geoNear dist near maxDistance store) :=
  List.sorted_insertionSort distLe _

/-- Distance facts for every element of a `geoNear` result, as a
binder-free `Forall`. -/
theorem geoNear_forall (dist : GeoObject → GeoObject → ℚ) (near : GeoObject)
    (maxDistance : ℚ) (store : List Place) :
    List.Forall
      (fun pd => pd.distance = dist near pd.toPlace.geo ∧ pd.distance ≤ maxDistance)
      (geoNear dist near maxDistance store) := by
  rw [List.forall_iff_forall_mem]
  exact fun pd hpd => geoNear_mem dist near maxDistance store pd hpd

/-! ### Concrete sample data for the worked examples of the spec -/

/-- A placemark whose coordinate string carries an altitude component. -/
def altPlacemark : Placemark :=
  { name := "Spot", description := some " A spot ",
    Point := { coordinates := "12.34,56.78,0" } }

/-- A document with two placemarks, the second missing its `description`. -/
def sampleDoc : KMLDoc :=
  { Folder :=
      [{ Placemark :=
          [{ name := "First", description := some " with description ",
             Point := { coordinates := "1.5,2.5" } },
           { name := "Second", description := none,
             Point := { coordinates := "3.5,4.5,7" } }] }] }

/-- Sample stored places with integer coordinates. -/
def samplePlaceA : Place :=
  { name := "Alpha", description := "first", geo := { coordinates := (1, 2) } }

/-- Second sample place, alphabetically in the middle. -/
def samplePlaceB : Place :=
  { name := "Beta", description := "second", geo := { coordinates := (3, 4) } }

/-- Third sample place. -/
def samplePlaceC : Place :=
  { name := "Gamma", description := "third", geo := { coordinates := (5, 6) } }

/-! ### Claims -/

/-- C1: for every placemark whose `Point.coordinates` string splits on
commas into at least a longitude and a latitude field, the import stores
exactly the first two fields as `(longitude, latitude)`, discarding any
further (altitude) component. -/
theorem upload_takes_first_two_coordinate_fields
    (pm : Placemark) (lon lat : String) (rest : List String) (x y : ℚ)
    (hsplit : pysplit ',' (pystrip pm.Point.coordinates) = lon :: lat :: rest)
    (hx : pyfloat lon = some x) (hy : pyfloat lat = some y) :
    Option.map (fun p => p.geo.coordinates) (placeOfPlacemark pm) = some (x, y) := by
  have htake : (pysplit ',' (pystrip pm.Point.coordinates)).take 2 = [lon, lat] := by
    rw [hsplit]; rfl
  simp [placeOfPlacemark, htake, validateCoordPair, hx, hy]

/-- C1 witness: the example of the spec `"12.34,56.78,0"` is stored with
coordinates `(12.34, 56.78)` (= `(617/50, 2839/50)`); the altitude `0` is
discarded. -/
theorem upload_takes_first_two_coordinate_fields_witness :
    pysplit ',' (pystrip altPlacemark.Point.coordinates) = "12.34" :: "56.78" :: ["0"] ∧
    pyfloat "12.34" = some (PyFloatParts.val ⟨false, 12, 34, 2, 0⟩) ∧
    pyfloat "56.78" = some (PyFloatParts.val ⟨false, 56, 78, 2, 0⟩) ∧
    Option.map (fun p => p.geo.coordinates) (placeOfPlacemark altPlacemark) =
      some (PyFloatParts.val ⟨false, 12, 34, 2, 0⟩, PyFloatParts.val ⟨false, 56, 78, 2, 0⟩) ∧
    PyFloatParts.val ⟨false, 12, 34, 2, 0⟩ = 617/50 ∧
    PyFloatParts.val ⟨false, 56, 78, 2, 0⟩ = 2839/50 :=
  ⟨by decide, rfl, rfl,
    upload_takes_first_two_coordinate_fields altPlacemark "12.34" "56.78" ["0"]
      (PyFloatParts.val ⟨false, 12, 34, 2, 0⟩) (PyFloatParts.val ⟨false, 56, 78, 2, 0⟩)
      (by decide) rfl rfl,
    by norm_num [PyFloatParts.val], by norm_num [PyFloatParts.val]⟩

/-- C2: a placemark lacking a `description` element never fails the import
(whenever all coordinate fields validate, the request succeeds), and the
stored description is the empty string for an absent element and the
whitespace-trimmed text otherwise. -/
theorem upload_missing_description_tolerated
    (doc : KMLDoc) (store : List Place)
    (hc : ((allPlacemarks doc).all fun pm =>
        (validateCoordPair
          ((pysplit ',' (pystrip pm.Point.coordinates)).take 2)).isSome) = true) :
    places_from_file (some doc) store =
      ([DBCall.insertMany (placesOf doc)], store ++ placesOf doc,
        Except.ok { status := ResponseStatuses.OK }) ∧
    (placesOf doc).map Place.description =
      (allPlacemarks doc).map fun pm => (Option.map pystrip pm.description).getD "" := by
  have hall : ((allPlacemarks doc).all fun pm => (placeOfPlacemark pm).isSome) = true := by
    rw [List.all_eq_true] at hc ⊢
    exact fun pm hpm => (placeOfPlacemark_isSome pm).trans (hc pm hpm)
  obtain ⟨ps, hps, hdesc⟩ := buildPlacesFrom_spec (allPlacemarks doc) hall
  have hsome : (buildPlaces doc).isSome = true := by
    rw [buildPlaces, hps]; rfl
  have hplaces : placesOf doc = ps := by
    rw [placesOf, buildPlaces, hps]; rfl
  exact ⟨places_from_file_ok doc store hsome, by rw [hplaces, hdesc]⟩

/-- C2 witness: importing `sampleDoc` (second placemark has no
description) succeeds with two stored places, the second with
description `""`, the first trimmed. -/
theorem upload_missing_description_tolerated_witness :
    ((allPlacemarks sampleDoc).all fun pm =>
        (validateCoordPair
          ((pysplit ',' (pystrip pm.Point.coordinates)).take 2)).isSome) = true ∧
    (places_from_file (some sampleDoc) [] =
      ([DBCall.insertMany (placesOf sampleDoc)], [] ++ placesOf sampleDoc,
        Except.ok { status := ResponseStatuses.OK }) ∧
      (placesOf sampleDoc).map Place.description =
        (allPlacemarks sampleDoc).map fun pm => (Option.map pystrip pm.description).getD "") ∧
    (placesOf sampleDoc).length = 2 ∧
    (placesOf sampleDoc).map Place.description = ["with description", ""] :=
  ⟨by decide, upload_missing_description_tolerated sampleDoc [] (by decide),
    by decide, by decide⟩

/-- C6: on a well-formed document the import builds exactly one `Place`
per placemark across all folders, issues a single `insert_many` driver
call carrying the whole batch, appends the batch to the store, and
returns `{status: "OK"}`. -/
theorem upload_single_batch_insert
    (doc : KMLDoc) (store : List Place)
    (hok : (buildPlaces doc).isSome = true) :
    places_from_file (some doc) store =
      ([DBCall.insertMany (placesOf doc)], store ++ placesOf doc,
        Except.ok { status := ResponseStatuses.OK }) ∧
    (placesOf doc).length = (allPlacemarks doc).length := by
  refine ⟨places_from_file_ok doc store hok, ?_⟩
  exact buildPlacesFrom_length (allPlacemarks doc) (placesOf doc)
    (buildPlaces_eq_some doc hok)

/-- C6 witness: importing `sampleDoc` into a one-place store issues one
`insert_many` of both built places and acknowledges with `OK`. -/
theorem upload_single_batch_insert_witness :
    (buildPlaces sampleDoc).isSome = true ∧
    (places_from_file (some sampleDoc) [samplePlaceA] =
      ([DBCall.insertMany (placesOf sampleDoc)], [samplePlaceA] ++ placesOf sampleDoc,
        Except.ok { status := ResponseStatuses.OK }) ∧
      (placesOf sampleDoc).length = (allPlacemarks sampleDoc).length) :=
  ⟨by decide, upload_single_batch_insert sampleDoc [samplePlaceA] (by decide)⟩

/-- C7: an unparsable upload payload (pykml raises before the import loop)
fails the whole request with a malformed-input (client) error, issues no
driver call, and leaves the stored collection unchanged — no partial
success. -/
theorem malformed_upload_rejected_without_insert (store : List Place) :
    places_from_file none store = ([], store, Except.error HandlerError.parseFailure) ∧
    HandlerError.parseFailure.isClientError = true :=
  ⟨rfl, rfl⟩

/-- C3: for every search string and optional skip/limit, the text search
returns the `$text` matches sorted by `name` ascending (never by relevance
score), with skip and limit applied as a window over the full ordered
match set; in particular, with skip=1 and limit=1 over the three
alphabetically-ordered sample matches it returns exactly the second. -/
theorem text_search_sorted_window (tm : String → Place → Bool)
    (input : PlacesByWordInput) (store : List Place) :
    List.Perm (sortByName (store.filter (tm input.search_words)))
      (store.filter (tm input.search_words)) ∧
    List.Pairwise nameLe (sortByName (store.filter (tm input.search_words))) ∧
    (places_by_word tm input store).2.2 =
      applyLimit input.limit
        (applySkip input.skip (sortByName (store.filter (tm input.search_words)))) ∧
    (places_by_word (fun _ _ => true)
        { search_words := "w", skip := some 1, limit := some 1 }
        [samplePlaceA, samplePlaceB, samplePlaceC]).2.2 = [samplePlaceB] :=
  ⟨List.perm_insertionSort nameLe _, List.sorted_insertionSort nameLe _,
    rfl, by decide⟩

/-- C4: for every query point and radius, the radius search returns
elements in non-decreasing `distance` order, each carrying its distance
from the query point, all within the `maxDistance` cutoff, and consists
exactly of the stored places within the cutoff. -/
theorem radius_search_sorted_by_distance (dist : GeoObject → GeoObject → ℚ)
    (input : PlacesAroundInput) (store : List Place) :
    List.Pairwise distLe (places_by_radius dist input store).2.2 ∧
    List.Forall
      (fun pd => pd.distance = dist (aroundQueryPoint input) pd.toPlace.geo ∧
        pd.distance ≤ input.radius)
      (places_by_radius dist input store).2.2 ∧
    List.Perm (places_by_radius dist input store).2.2
      ((store.filter fun p =>
          decide (dist (aroundQueryPoint input) p.geo ≤ input.radius)).map
        fun p => { toPlace := p, distance := dist (aroundQueryPoint input) p.geo }) :=
  ⟨geoNear_pairwise dist (aroundQueryPoint input) input.radius store,
    geoNear_forall dist (aroundQueryPoint input) input.radius store,
    List.perm_insertionSort distLe _⟩

/-- C5: a place built by the import with coordinates `(x, y)`, once
the upload has inserted its batch, is returned by a text search whose
predicate matches it (default skip/limit), with its coordinates
unchanged. -/
theorem roundtrip_coordinates_preserved
    (tm : String → Place → Bool) (w : String) (doc : KMLDoc)
    (store : List Place) (p : Place) (x y : ℚ)
    (hok : (buildPlaces doc).isSome = true)
    (hp : p ∈ placesOf doc)
    (hm : tm w p = true)
    (hxy : p.geo.coordinates = (x, y)) :
    p ∈ (places_by_word tm { search_words := w }
          ((places_from_file (some doc) store).2.1)).2.2 ∧
    p.geo.coordinates = (x, y) := by
  refine ⟨?_, hxy⟩
  have hstore : (places_from_file (some doc) store).2.1 = store ++ placesOf doc := by
    rw [places_from_file_ok doc store hok]
  rw [hstore]
  show p ∈ find_many_text tm w none none (store ++ placesOf doc)
  rw [find_many_text, applyLimit, applySkip]
  simp only [Option.getD_none, List.drop_zero]
  rw [sortByName, List.mem_insertionSort]
  exact List.mem_filter.mpr ⟨List.mem_append.mpr (Or.inr hp), hm⟩

/-- A one-placemark document used to witness the round trip. -/
def homeDoc : KMLDoc :=
  { Folder :=
      [{ Placemark :=
          [{ name := "Home", description := none,
             Point := { coordinates := "12.34,56.78" } }] }] }

/-- The place the import builds from `homeDoc`. -/
def homePlace : Place :=
  { name := "Home", description := "",
    geo := { coordinates :=
      (PyFloatParts.val ⟨false, 12, 34, 2, 0⟩, PyFloatParts.val ⟨false, 56, 78, 2, 0⟩) } }

/-- A text-match predicate that matches a place whose name equals the
search word. -/
def tmByName (w : String) (p : Place) : Bool := p.name == w

/-- C5 witness: importing `homeDoc` and searching for "Home" returns the
place with its parsed coordinates `(12.34, 56.78)` unchanged. -/
theorem roundtrip_coordinates_preserved_witness :
    (buildPlaces homeDoc).isSome = true ∧
    homePlace ∈ placesOf homeDoc ∧
    tmByName "Home" homePlace = true ∧
    (homePlace ∈ (places_by_word tmByName { search_words := "Home" }
        ((places_from_file (some homeDoc) []).2.1)).2.2 ∧
      homePlace.geo.coordinates =
        (PyFloatParts.val ⟨false, 12, 34, 2, 0⟩, PyFloatParts.val ⟨false, 56, 78, 2, 0⟩)) :=
  have hp : homePlace ∈ placesOf homeDoc := by
    rw [show placesOf homeDoc = [homePlace] from rfl]
    exact List.mem_singleton_self homePlace
  ⟨by decide, hp, rfl,
    roundtrip_coordinates_preserved tmByName "Home" homeDoc [] homePlace
      (PyFloatParts.val ⟨false, 12, 34, 2, 0⟩) (PyFloatParts.val ⟨false, 56, 78, 2, 0⟩)
      (by decide) hp rfl rfl⟩

/-- C8: every `GeoObject` the program constructs has `type = "Point"` —
both the `geo` of imported places and the radius query point — and its
coordinates are one ordered pair (the pydantic `Tuple[float, float]`
validation accepts exactly two fields). -/
theorem geoobject_always_point_pair
    (doc : KMLDoc) (input : PlacesAroundInput)
    (_hok : (buildPlaces doc).isSome = true) :
    List.Forall
      (fun p => p.geo.type = GeoType.point ∧ GeoType.str p.geo.type = "Point")
      (placesOf doc) ∧
    ((aroundQueryPoint input).type = GeoType.point ∧
      GeoType.str (aroundQueryPoint input).type = "Point") ∧
    ∀ fields : List String, ∀ xy : ℚ × ℚ,
      validateCoordPair fields = some xy → fields.length = 2 := by
  refine ⟨?_, ⟨rfl, rfl⟩, ?_⟩
  · rw [List.forall_iff_forall_mem]
    intro p _
    rw [GeoType.eq_point p.geo.type]
    exact ⟨rfl, rfl⟩
  · intro fields xy h
    match fields with
    | [] => exact absurd h (by simp [validateCoordPair])
    | [a] => exact absurd h (by simp [validateCoordPair])
    | [a, b] => rfl
    | a :: b :: c :: t => exact absurd h (by simp [validateCoordPair])

/-- C8 witness: the built places of the sample document and a concrete query
point all carry `type = "Point"`. -/
theorem geoobject_always_point_pair_witness :
    (buildPlaces sampleDoc).isSome = true ∧
    List.Forall
      (fun p => p.geo.type = GeoType.point ∧ GeoType.str p.geo.type = "Point")
      (placesOf sampleDoc) ∧
    ((aroundQueryPoint { coordinates := (0, 0) }).type = GeoType.point ∧
      GeoType.str (aroundQueryPoint { coordinates := (0, 0) }).type = "Point") :=
  ⟨by decide,
    (geoobject_always_point_pair sampleDoc { coordinates := (0, 0) } (by decide)).1,
    (geoobject_always_point_pair sampleDoc { coordinates := (0, 0) } (by decide)).2.1⟩

/-- C9: a radius-search request with the `radius` field omitted uses the
declared default `1000` as the `maxDistance` bound of the `$geoNear`
query, so every returned distance is at most `1000`. -/
theorem radius_defaults_to_1000 (coords : ℚ × ℚ)
    (dist : GeoObject → GeoObject → ℚ) (store : List Place) :
    (PlacesAroundInput.ofRaw { coordinates := coords, radius := none }).radius = 1000 ∧
    places_by_radius dist (PlacesAroundInput.ofRaw { coordinates := coords, radius := none })
        store =
      ([DBCall.geoNearAgg { coordinates := coords } 1000], store,
        geoNear dist { coordinates := coords } 1000 store) ∧
    List.Forall (fun pd => pd.distance ≤ 1000)
      (places_by_radius dist
        (PlacesAroundInput.ofRaw { coordinates := coords, radius := none }) store).2.2 := by
  refine ⟨rfl, rfl, ?_⟩
  rw [List.forall_iff_forall_mem]
  intro pd hpd
  exact (geoNear_mem dist { coordinates := coords } 1000 store pd hpd).2

/-- C10: the text-search and radius-search handlers are read-only — they
leave the stored collection unchanged and issue no writing driver call —
while the store after any handler is exactly the effect of the driver
calls it issued (only the import call `insert_many` mutates). -/
theorem search_endpoints_read_only (tm : String → Place → Bool)
    (winput : PlacesByWordInput) (dist : GeoObject → GeoObject → ℚ)
    (ainput : PlacesAroundInput) (store : List Place) (parsed : Option KMLDoc) :
    (places_by_word tm winput store).2.1 = store ∧
    ((places_by_word tm winput store).1.all fun c => !c.isWrite) = true ∧
    (places_by_radius dist ainput store).2.1 = store ∧
    ((places_by_radius dist ainput store).1.all fun c => !c.isWrite) = true ∧
    (places_from_file parsed store).2.1 =
      (places_from_file parsed store).1.foldl applyCall store := by
  refine ⟨rfl, rfl, rfl, rfl, ?_⟩
  match parsed with
  | none => rfl
  | some doc =>
    rw [places_from_file]
    match h : buildPlaces doc with
    | none => rfl
    | some ps => rfl

end BeanieIndexDemo
